import Mathlib

/-!
Verification of the physics computation core of the `physics-lab` simulator.

The TypeScript source is shallowly embedded: JS numbers are modelled as real
numbers, imperative accumulation loops as `List.foldl` over `List.range`,
and records as Lean structures. Loop counters and sample counts are modelled
as natural numbers (the UI supplies integer sample counts).
-/

open scoped Classical

noncomputable section

namespace PhysicsLab

/-- Permeability of free space, `MU_0 = 4 * Math.PI * 1e-7` in the source. -/
def MU_0 : ℝ := 4 * Real.pi * 1e-7

/-- Planar vector, `interface Vector2D` from `magneticField.ts`. -/
structure Vector2D where
  x : ℝ
  y : ℝ

@[ext] theorem Vector2D.ext_fields {a b : Vector2D} (hx : a.x = b.x) (hy : a.y = b.y) :
    a = b := by
  cases a; cases b; simp_all

/-- Coil configuration, `interface CoilState` from `magneticField.ts`. -/
structure CoilState where
  position : Vector2D
  radius : ℝ
  turns : ℝ
  angle : ℝ
  resistance : ℝ

/-- Translation of `calculateMagneticField` from `magneticField.ts`: dipole field at `point`
for a dipole of moment `dipoleMoment` at `magnetPos`, with the
`r_mag < 1e-6` singularity guard returning the zero vector. -/
def calculateMagneticField (point magnetPos : Vector2D) (dipoleMoment : ℝ) : Vector2D :=
  let r : Vector2D := ⟨point.x - magnetPos.x, point.y - magnetPos.y⟩
  let r_mag := Real.sqrt (r.x * r.x + r.y * r.y)
  if r_mag < 1e-6 then ⟨0, 0⟩
  else
    let r3 := r_mag * r_mag * r_mag
    let cosTheta := r.x / r_mag
    let sinTheta := r.y / r_mag
    let Bx := MU_0 / (4 * Real.pi) * dipoleMoment * (3 * cosTheta * cosTheta - 1) / r3
    let By := MU_0 / (4 * Real.pi) * dipoleMoment * 3 * cosTheta * sinTheta / r3
    ⟨Bx, By⟩

/-- Loop body of `calculateAverageFieldOverCoil`: one inner-loop iteration at
grid indices `(i, j)`; the accumulator is `(totalBx, totalBy, validSamples)`.
A point outside the circular mask leaves the accumulator unchanged
(the `continue` in the source). -/
def avgBody (coil : CoilState) (magnetPos : Vector2D) (dipoleMoment : ℝ) (samples : ℕ)
    (i : ℕ) (acc : ℝ × ℝ × ℕ) (j : ℕ) : ℝ × ℝ × ℕ :=
  let step := 2 * coil.radius / (samples : ℝ)
  let localX := -coil.radius + (i : ℝ) * step
  let localY := -coil.radius + (j : ℝ) * step
  let distFromCenter := Real.sqrt (localX * localX + localY * localY)
  if distFromCenter > coil.radius then acc
  else
    let cosAngle := Real.cos coil.angle
    let sinAngle := Real.sin coil.angle
    let worldX := coil.position.x + localX * cosAngle - localY * sinAngle
    let worldY := coil.position.y + localX * sinAngle + localY * cosAngle
    let B := calculateMagneticField ⟨worldX, worldY⟩ magnetPos dipoleMoment
    (acc.1 + B.x, acc.2.1 + B.y, acc.2.2 + 1)

/-- Translation of `calculateAverageFieldOverCoil` from `magneticField.ts`: mean dipole field
over the circularly masked sample grid; returns the zero vector when no grid
point passes the mask. -/
def calculateAverageFieldOverCoil (coil : CoilState) (magnetPos : Vector2D)
    (dipoleMoment : ℝ) (samples : ℕ) : Vector2D :=
  let acc := (List.range samples).foldl
    (fun a i => (List.range samples).foldl (avgBody coil magnetPos dipoleMoment samples i) a)
    (0, 0, 0)
  if acc.2.2 = 0 then ⟨0, 0⟩
  else ⟨acc.1 / (acc.2.2 : ℝ), acc.2.1 / (acc.2.2 : ℝ)⟩

/-- Loop body of `calculateFlux`: one inner-loop iteration at grid indices
`(i, j)`, accumulating `totalFlux`. The `validSamples` counter of the source
is not modelled: it is accumulated but unused in the returned flux. -/
def fluxBody (coil : CoilState) (magnetPos : Vector2D) (dipoleMoment : ℝ) (samples : ℕ)
    (i : ℕ) (acc : ℝ) (j : ℕ) : ℝ :=
  let step := 2 * coil.radius / (samples : ℝ)
  let dA := step * step
  let localX := -coil.radius + (i : ℝ) * step
  let localY := -coil.radius + (j : ℝ) * step
  let distFromCenter := Real.sqrt (localX * localX + localY * localY)
  if distFromCenter > coil.radius then acc
  else
    let cosAngle := Real.cos coil.angle
    let sinAngle := Real.sin coil.angle
    let worldX := coil.position.x + localX * cosAngle - localY * sinAngle
    let worldY := coil.position.y + localX * sinAngle + localY * cosAngle
    let B := calculateMagneticField ⟨worldX, worldY⟩ magnetPos dipoleMoment
    let B_dot_n := B.x * Real.sin coil.angle + B.y * Real.cos coil.angle
    acc + B_dot_n * dA

/-- Translation of `calculateFlux` from `magneticField.ts`: grid-and-mask numerical flux
integral `N * Σ (B·n̂) dA` with normal `(sin θ, cos θ)`. -/
def calculateFlux (coil : CoilState) (magnetPos : Vector2D) (dipoleMoment : ℝ)
    (samples : ℕ) : ℝ :=
  coil.turns *
    (List.range samples).foldl
      (fun acc i => (List.range samples).foldl (fluxBody coil magnetPos dipoleMoment samples i) acc)
      0

/-- Translation of `smoothValue` from `magneticField.ts`: exponential smoothing. -/
def smoothValue (currentValue previousSmoothed alpha : ℝ) : ℝ :=
  alpha * currentValue + (1 - alpha) * previousSmoothed

/-- Translation of `calculateFluxRateCentral` from `magneticField.ts`. JS indexing
`arr[k]` is modelled as `List.getD k 0`; the source's duplicated
`dt < 1e-9` guard in the `n ≥ 3` branch is kept as written. -/
def calculateFluxRateCentral (fluxHistory timeHistory : List ℝ) : ℝ :=
  if fluxHistory.length < 2 then 0
  else if timeHistory.length < 2 then 0
  else
    let n := fluxHistory.length
    let currentFlux := fluxHistory.getD (n - 1) 0
    let currentTime := timeHistory.getD (n - 1) 0
    if 3 ≤ n then
      let prevFlux := fluxHistory.getD (n - 2) 0
      let prevTime := timeHistory.getD (n - 2) 0
      let dt := currentTime - prevTime
      if dt < 1e-9 then 0
      else
        let dt_central := currentTime - prevTime
        if dt_central < 1e-9 then 0
        else (currentFlux - prevFlux) / dt_central
    else
      let prevFlux := fluxHistory.getD (n - 2) 0
      let prevTime := timeHistory.getD (n - 2) 0
      let dt := currentTime - prevTime
      if dt < 1e-9 then 0
      else (currentFlux - prevFlux) / dt

/-- Translation of `calculateFluxRate` from `magneticField.ts` (simple backward difference). -/
def calculateFluxRate (currentFlux previousFlux dt : ℝ) : ℝ :=
  if dt < 1e-9 then 0 else (currentFlux - previousFlux) / dt

/-- Translation of `calculateEMF` from `magneticField.ts`: Faraday law `ε = -N * dΦ/dt`. -/
def calculateEMF (fluxRate turns : ℝ) : ℝ :=
  -turns * fluxRate

/-- Translation of `calculateCurrent` from `magneticField.ts`: `I = ε / R_total` with the
`R_total < 1e-9` zero guard. -/
def calculateCurrent (emf totalResistance : ℝ) : ℝ :=
  if totalResistance < 1e-9 then 0 else emf / totalResistance

/-- Current direction literal `"CW" | "CCW"`. -/
inductive Direction where
  | CW
  | CCW
  deriving DecidableEq, Repr

/-- Rendering of a `Direction` as the string literal used in the source. -/
def Direction.toStr : Direction → String
  | .CW => "CW"
  | .CCW => "CCW"

/-- Flux change literal `"increasing" | "decreasing" | "constant"`. -/
inductive FluxChange where
  | increasing
  | decreasing
  | constant
  deriving DecidableEq, Repr

/-- Rendering of a `FluxChange` as the string literal used in the source. -/
def FluxChange.toStr : FluxChange → String
  | .increasing => "increasing"
  | .decreasing => "decreasing"
  | .constant => "constant"

/-- Return record of `getCurrentDirectionAndExplanation`. -/
structure DirectionResult where
  direction : Direction
  fluxChange : FluxChange
  explanation : String

/-- Translation of `getCurrentDirectionAndExplanation` from `magneticField.ts`: Lenz-law
classification of `(fluxRate, emf)` with the explanation strings built as in
the source template literals. -/
def getCurrentDirectionAndExplanation (fluxRate emf : ℝ) : DirectionResult :=
  if |fluxRate| < 1e-9 then
    { direction := .CW
      fluxChange := .constant
      explanation := "Flux is constant (dΦ/dt ≈ 0). No induced EMF or current." }
  else
    let isIncreasing := fluxRate > 0
    let direction : Direction := if emf > 0 then .CCW else .CW
    if isIncreasing then
      { direction := direction
        fluxChange := .increasing
        explanation := "Flux is increasing (dΦ/dt > 0). Induced EMF is negative (ε = -N·dΦ/dt). Current flows " ++ direction.toStr ++ " (viewed from +x) to oppose the increase in flux (Lenz\x27s Law)." }
    else
      { direction := direction
        fluxChange := .decreasing
        explanation := "Flux is decreasing (dΦ/dt < 0). Induced EMF is positive (ε = -N·dΦ/dt). Current flows " ++ direction.toStr ++ " (viewed from +x) to oppose the decrease in flux (Lenz\x27s Law)." }

/-- One Mode A measurement record, `interface Measurement` from `types.ts`. -/
structure Measurement where
  timestamp : ℝ
  deltaT : ℝ
  magnetX : ℝ
  magnetY : ℝ
  velocityX : ℝ
  velocityY : ℝ
  speed : ℝ
  turns : ℝ
  radius : ℝ
  angle : ℝ
  coilResistance : ℝ
  loadResistance : ℝ
  totalResistance : ℝ
  magneticFieldX : ℝ
  magneticFieldY : ℝ
  magneticFieldMag : ℝ
  flux : ℝ
  fluxRate : ℝ
  emf : ℝ
  current : ℝ
  direction : Direction
  fluxChange : FluxChange
  lenzExplanation : String

/-- One Mode B measurement record, `interface MeasurementB` from `types.ts`. -/
structure MeasurementB where
  timestamp : ℝ
  deltaT : ℝ
  voltage : ℝ
  resistance : ℝ
  current : ℝ
  length : ℝ
  turns : ℝ
  turnDensity : ℝ
  radius : ℝ
  magneticField : ℝ
  polarity : ℝ

/-- Lab mode tag, `type LabMode` from `types.ts`. -/
inductive LabMode where
  | faraday
  | currentToField
  deriving DecidableEq

/-- Motion mode literal of `LabState.motionMode`. -/
inductive MotionMode where
  | manual
  | constant
  | sinusoidal
  deriving DecidableEq

/-- Full lab state, `interface LabState` from `types.ts`. Sample counts are
modelled as naturals; everything else numeric is a real. -/
structure LabState where
  labMode : LabMode
  magnetPosition : Vector2D
  magnetVelocity : Vector2D
  isDragging : Bool
  coilTurns : ℝ
  coilRadius : ℝ
  coilAngle : ℝ
  coilResistance : ℝ
  coilPosition : Vector2D
  loadResistance : ℝ
  magnetDipoleMoment : ℝ
  motionMode : MotionMode
  motionSpeed : ℝ
  motionFrequency : ℝ
  fluxHistory : List ℝ
  fluxTimeHistory : List ℝ
  fluxIntegrationSamples : ℕ
  fluxSmoothingWindow : ℝ
  voltage : ℝ
  resistance : ℝ
  solenoidTurns : ℝ
  solenoidLength : ℝ
  solenoidRadius : ℝ
  polarity : ℝ
  useEndEffects : Bool
  showAnswers : Bool
  time : ℝ
  isRecording : Bool
  measurements : List Measurement
  measurementsB : List MeasurementB
  showFieldLines : Bool
  graphTimeWindow : ℝ

/-- The coil sub-state that `getCurrentSnapshot` builds from a `LabState`
when it calls the flux integrator. -/
def LabState.coil (s : LabState) : CoilState :=
  ⟨s.coilPosition, s.coilRadius, s.coilTurns, s.coilAngle, s.coilResistance⟩

/-- Translation of `getCurrentSnapshot` from `measurement.ts`: the Mode A single source of
truth. JS `fluxHistory[fluxHistory.length - 1]` is `List.getD (len - 1) 0`,
and `length > 0` tests are `List ≠ []` tests. -/
def getCurrentSnapshot (labState : LabState) (dt : ℝ) : Measurement :=
  let flux := calculateFlux labState.coil labState.magnetPosition
    labState.magnetDipoleMoment labState.fluxIntegrationSamples
  let smoothedFlux :=
    if labState.fluxSmoothingWindow > 0 ∧ labState.fluxHistory ≠ [] then
      smoothValue flux (labState.fluxHistory.getD (labState.fluxHistory.length - 1) 0) 0.3
    else flux
  let fluxHistoryForCalc :=
    if labState.fluxHistory ≠ [] then labState.fluxHistory ++ [smoothedFlux]
    else [smoothedFlux]
  let timeHistoryForCalc :=
    if labState.fluxTimeHistory ≠ [] then labState.fluxTimeHistory ++ [labState.time]
    else [labState.time]
  let fluxRate := calculateFluxRateCentral fluxHistoryForCalc timeHistoryForCalc
  let emf := calculateEMF fluxRate labState.coilTurns
  let totalResistance := labState.coilResistance + labState.loadResistance
  let current := calculateCurrent emf totalResistance
  let dce := getCurrentDirectionAndExplanation fluxRate emf
  let B_avg := calculateAverageFieldOverCoil labState.coil labState.magnetPosition
    labState.magnetDipoleMoment labState.fluxIntegrationSamples
  let speed := Real.sqrt (labState.magnetVelocity.x ^ 2 + labState.magnetVelocity.y ^ 2)
  { timestamp := labState.time
    deltaT := dt
    magnetX := labState.magnetPosition.x
    magnetY := labState.magnetPosition.y
    velocityX := labState.magnetVelocity.x
    velocityY := labState.magnetVelocity.y
    speed := speed
    turns := labState.coilTurns
    radius := labState.coilRadius
    angle := labState.coilAngle
    coilResistance := labState.coilResistance
    loadResistance := labState.loadResistance
    totalResistance := totalResistance
    magneticFieldX := B_avg.x
    magneticFieldY := B_avg.y
    magneticFieldMag := Real.sqrt (B_avg.x ^ 2 + B_avg.y ^ 2)
    flux := smoothedFlux
    fluxRate := fluxRate
    emf := emf
    current := current
    direction := dce.direction
    fluxChange := dce.fluxChange
    lenzExplanation := dce.explanation }

/-- Translation of `calculateFieldSolenoidAxis` from `biotSavart.ts`: on-axis field of an
ideal (or linearly end-tapered) solenoid. Note the turn density `N / L` is
computed with no guard on `L`. -/
def calculateFieldSolenoidAxis (z solenoidLength current turns : ℝ)
    (useEndEffects : Bool) : ℝ :=
  let turnDensity := turns / solenoidLength
  if !useEndEffects then
    let halfLength := solenoidLength / 2
    if |z| ≤ halfLength then MU_0 * turnDensity * current else 0
  else
    let halfLength := solenoidLength / 2
    let leftEnd := -halfLength
    let rightEnd := halfLength
    let idealB := MU_0 * turnDensity * current
    let distanceFromLeft := z - leftEnd
    let distanceFromRight := rightEnd - z
    let minDistance := min distanceFromLeft distanceFromRight
    if minDistance < solenoidLength * 0.1 then
      let reductionFactor := minDistance / (solenoidLength * 0.1)
      idealB * reductionFactor
    else idealB

/-- Modelled from the spec: the spec's edge policy says division by zero is
"guarded by explicit length>0 checks returning 0 turn density". This variant
of `calculateFieldSolenoidAxis` implements that guard on the turn density
(the source function itself has no such check); it exists only to be compared
against the source translation. -/
def calculateFieldSolenoidAxisGuarded (z solenoidLength current turns : ℝ)
    (useEndEffects : Bool) : ℝ :=
  let turnDensity := if solenoidLength > 0 then turns / solenoidLength else 0
  if !useEndEffects then
    let halfLength := solenoidLength / 2
    if |z| ≤ halfLength then MU_0 * turnDensity * current else 0
  else
    let halfLength := solenoidLength / 2
    let leftEnd := -halfLength
    let rightEnd := halfLength
    let idealB := MU_0 * turnDensity * current
    let distanceFromLeft := z - leftEnd
    let distanceFromRight := rightEnd - z
    let minDistance := min distanceFromLeft distanceFromRight
    if minDistance < solenoidLength * 0.1 then
      let reductionFactor := minDistance / (solenoidLength * 0.1)
      idealB * reductionFactor
    else idealB

/-- Translation of `getCurrentSnapshotB` from `measurementB.ts`: the Mode B single source of
truth (steady-state DC). -/
def getCurrentSnapshotB (labState : LabState) (_dt : ℝ) : MeasurementB :=
  let current := if labState.resistance > 0 then labState.voltage / labState.resistance else 0
  let turnDensity :=
    if labState.solenoidLength > 0 then labState.solenoidTurns / labState.solenoidLength else 0
  let B_magnitude := calculateFieldSolenoidAxis 0 labState.solenoidLength |current|
    labState.solenoidTurns labState.useEndEffects
  let magneticField := B_magnitude * labState.polarity
  { timestamp := labState.time
    deltaT := 0
    voltage := labState.voltage
    resistance := labState.resistance
    current := current
    length := labState.solenoidLength
    turns := labState.solenoidTurns
    turnDensity := turnDensity
    radius := labState.solenoidRadius
    magneticField := magneticField
    polarity := labState.polarity }

/-- CSV quoting of the Lenz explanation from `exportUtils`:
`"${s.replace(/"/g, '""')}"` — double every embedded quote, then wrap the
whole field in quotes. -/
def escapeCSV (s : String) : String :=
  "\"" ++ s.replace "\"" "\"\"" ++ "\""

/-- Mode A CSV header row (the `headers` array of `exportToCSV`). -/
def exportToCSV_headers : List String :=
  ["t (s)", "Δt (s)", "x (m)", "y (m)", "v_x (m/s)", "v_y (m/s)", "speed (m/s)",
   "N", "R (m)", "θ (rad)", "R_coil (Ω)", "R_load (Ω)", "R_total (Ω)",
   "B_x (T)", "B_y (T)", "B (T)", "Φ (Wb)", "dΦ/dt (Wb/s)", "ε (V)", "I (A)",
   "direction", "flux_change", "lenz_explanation"]

/-- One Mode A CSV data row (the row array of `exportToCSV`). JS number
formatting is abstracted: `fmt6` stands for `toFixed(6)` and `fmtNum` for
`toString`, exactly where the source uses each. -/
def exportToCSV_row (fmt6 fmtNum : ℝ → String) (m : Measurement) : List String :=
  [fmt6 m.timestamp, fmt6 m.deltaT, fmt6 m.magnetX, fmt6 m.magnetY,
   fmt6 m.velocityX, fmt6 m.velocityY, fmt6 m.speed, fmtNum m.turns,
   fmt6 m.radius, fmt6 m.angle, fmt6 m.coilResistance, fmt6 m.loadResistance,
   fmt6 m.totalResistance, fmt6 m.magneticFieldX, fmt6 m.magneticFieldY,
   fmt6 m.magneticFieldMag, fmt6 m.flux, fmt6 m.fluxRate, fmt6 m.emf,
   fmt6 m.current, m.direction.toStr, m.fluxChange.toStr,
   escapeCSV m.lenzExplanation]

/-- Translation of `exportToCSV` from `exportUtils`: empty string for no measurements, else
the header line and one line per measurement, comma-joined, newline-joined. -/
def exportToCSV (fmt6 fmtNum : ℝ → String) (measurements : List Measurement) : String :=
  if measurements = [] then ""
  else
    String.intercalate "\n"
      (String.intercalate "," exportToCSV_headers ::
        measurements.map (fun m => String.intercalate "," (exportToCSV_row fmt6 fmtNum m)))

/-- Translation of `exportToJSON` from: it `exportUtils` is `JSON.stringify(measurements, null, 2)`;
the JSON serializer itself is JS standard library, abstracted as `stringify`. -/
def exportToJSON (stringify : List Measurement → String)
    (measurements : List Measurement) : String :=
  stringify measurements

/-- Mode B CSV header row (the `headers` array of `exportToCSVB`). The source
comments: "Δt is not applicable for steady-state DC measurements in Mode B". -/
def exportToCSVB_headers : List String :=
  ["t (s)", "V (V)", "R_total (Ω)", "I (A)", "L (m)", "N", "n (turns/m)",
   "R (m)", "B (T)", "polarity"]

/-- One Mode B CSV data row (the row array of `exportToCSVB`). The source
comments: "deltaT is excluded from export (not applicable for steady-state DC)". -/
def exportToCSVB_row (fmt6 fmtNum : ℝ → String) (m : MeasurementB) : List String :=
  [fmt6 m.timestamp, fmt6 m.voltage, fmt6 m.resistance, fmt6 m.current,
   fmt6 m.length, fmtNum m.turns, fmt6 m.turnDensity, fmt6 m.radius,
   fmt6 m.magneticField, if m.polarity > 0 then "+1" else "-1"]

/-- Translation of `exportToCSVB` from `exportUtils`. -/
def exportToCSVB (fmt6 fmtNum : ℝ → String) (measurements : List MeasurementB) : String :=
  if measurements = [] then ""
  else
    String.intercalate "\n"
      (String.intercalate "," exportToCSVB_headers ::
        measurements.map (fun m => String.intercalate "," (exportToCSVB_row fmt6 fmtNum m)))

/-- Translation of `exportToJSONB` from `exportUtils`, like `exportToJSON`. -/
def exportToJSONB (stringify : List MeasurementB → String)
    (measurements : List MeasurementB) : String :=
  stringify measurements

/-- The claim's per-grid-point flux contribution, written as the spec states
it: keep a point iff its local distance from the coil center does not exceed
the radius, and contribute `(B · n̂) · dA` with `n̂ = (sin θ, cos θ)` and
`dA = step ^ 2`, `B` the dipole field at the tilt-rotated world point. -/
def fluxGridTermSpec (coil : CoilState) (magnetPos : Vector2D) (dipoleMoment : ℝ)
    (samples : ℕ) (i j : ℕ) : ℝ :=
  let step := 2 * coil.radius / (samples : ℝ)
  let localX := -coil.radius + (i : ℝ) * step
  let localY := -coil.radius + (j : ℝ) * step
  if Real.sqrt (localX * localX + localY * localY) ≤ coil.radius then
    let worldX := coil.position.x + localX * Real.cos coil.angle - localY * Real.sin coil.angle
    let worldY := coil.position.y + localX * Real.sin coil.angle + localY * Real.cos coil.angle
    let B := calculateMagneticField ⟨worldX, worldY⟩ magnetPos dipoleMoment
    (B.x * Real.sin coil.angle + B.y * Real.cos coil.angle) * step ^ 2
  else 0

/-- Default-style lab state used for concrete instantiations: the README's
documented initial configuration (Mode B values V=5, R=5, N=100, L=0.5). -/
def baseState : LabState :=
  { labMode := .faraday
    magnetPosition := ⟨-1, 0⟩
    magnetVelocity := ⟨0, 0⟩
    isDragging := false
    coilTurns := 10
    coilRadius := 0.1
    coilAngle := 0
    coilResistance := 1
    coilPosition := ⟨0, 0⟩
    loadResistance := 1
    magnetDipoleMoment := 1
    motionMode := .manual
    motionSpeed := 0
    motionFrequency := 0
    fluxHistory := []
    fluxTimeHistory := []
    fluxIntegrationSamples := 20
    fluxSmoothingWindow := 5
    voltage := 5
    resistance := 5
    solenoidTurns := 100
    solenoidLength := 0.5
    solenoidRadius := 0.05
    polarity := 1
    useEndEffects := false
    showAnswers := false
    time := 0
    isRecording := true
    measurements := []
    measurementsB := []
    showFieldLines := true
    graphTimeWindow := 0 }

/-- Variant of `baseState` with the solenoid polarity reversed. -/
def stateNegPolarity : LabState := { baseState with polarity := -1 }

/-- A Mode B state with a negative solenoid length and end effects enabled. -/
def stateC7 : LabState :=
  { baseState with voltage := 1, resistance := 1, solenoidLength := -1, useEndEffects := true }

/-- A Mode B state with a zero solenoid length. -/
def stateC7w : LabState := { baseState with solenoidLength := 0 }

/-- A Mode A state with smoothing enabled, non-empty flux history and a
zero-radius coil (so the raw integrated flux is 0). -/
def stateC8w : LabState :=
  { baseState with
      coilRadius := 0
      fluxIntegrationSamples := 1
      fluxHistory := [2]
      fluxTimeHistory := [0]
      time := 1 }

/-- A Mode A state with smoothing disabled (`fluxSmoothingWindow = 0`) but a
non-empty flux history, and a zero-radius coil. -/
def stateC8c : LabState :=
  { baseState with
      coilRadius := 0
      fluxIntegrationSamples := 1
      fluxSmoothingWindow := 0
      fluxHistory := [1]
      fluxTimeHistory := [0]
      time := 1 }

/-- A zero-radius coil at the origin. -/
def coilC10 : CoilState := ⟨⟨0, 0⟩, 0, 10, 0, 1⟩

/-- A concrete Mode B measurement record with a nonzero `deltaT`. -/
def measB0 : MeasurementB :=
  ⟨0, 0.5, 5, 5, 1, 0.5, 100, 200, 0.05, 0.000251, 1⟩

/-! ## Helper lemmas -/

theorem foldl_add_eq (f : ℕ → ℝ) :
    ∀ (l : List ℕ) (a : ℝ), l.foldl (fun acc x => acc + f x) a = a + (l.map f).sum := by
  intro l
  induction l with
  | nil => intro a; simp
  | cons x xs ih => intro a; simp [ih, add_assoc]

theorem list_range_map_sum (f : ℕ → ℝ) (n : ℕ) :
    ((List.range n).map f).sum = ∑ i in Finset.range n, f i := by
  induction n with
  | zero => simp
  | succ k ih => rw [List.range_succ, Finset.sum_range_succ]; simp [ih]

theorem double_fold_sum (g : ℕ → ℕ → ℝ) (n : ℕ) :
    (List.range n).foldl
      (fun acc i => (List.range n).foldl (fun a j => a + g i j) acc) 0 =
      ∑ i in Finset.range n, ∑ j in Finset.range n, g i j := by
  have h1 : (fun (acc : ℝ) (i : ℕ) => (List.range n).foldl (fun a j => a + g i j) acc) =
      fun acc i => acc + ∑ j in Finset.range n, g i j := by
    funext acc i
    rw [foldl_add_eq, list_range_map_sum]
  rw [h1, foldl_add_eq, list_range_map_sum, zero_add]

/-! ## Claims -/

/-- C1: Mode A snapshot determinism — two calls of `getCurrentSnapshot` with
equal `LabState` (flux histories included) and equal `dt` return equal
`Measurement` records; the snapshot assembler is a pure function of its
inputs. -/
theorem C1_snapshot_determinism (s1 s2 : LabState) (dt1 dt2 : ℝ)
    (hs : s1 = s2) (hdt : dt1 = dt2) :
    getCurrentSnapshot s1 dt1 = getCurrentSnapshot s2 dt2 := by
  rw [hs, hdt]

/-- Witness for C1 at the concrete default state. -/
theorem C1_snapshot_determinism_witness :
    getCurrentSnapshot baseState 0.016 = getCurrentSnapshot baseState 0.016 :=
  C1_snapshot_determinism baseState baseState 0.016 0.016 rfl rfl

/-- C2: flux-rate computation — with fewer than 2 flux points the rate is 0;
for histories of equal length at least 2 (every branch, the "central
difference"-labeled one included) the rate is the two-point backward
difference with the `1e-9` time-gap guard. -/
theorem C2_flux_rate_backward_difference (fh th : List ℝ) :
    (fh.length < 2 → calculateFluxRateCentral fh th = 0) ∧
    (2 ≤ fh.length → th.length = fh.length →
      calculateFluxRateCentral fh th =
        if th.getD (fh.length - 1) 0 - th.getD (fh.length - 2) 0 < 1e-9 then 0
        else
          (fh.getD (fh.length - 1) 0 - fh.getD (fh.length - 2) 0) /
            (th.getD (fh.length - 1) 0 - th.getD (fh.length - 2) 0)) := by
  constructor
  · intro h
    unfold calculateFluxRateCentral
    rw [if_pos h]
  · intro h2 hlen
    unfold calculateFluxRateCentral
    rw [if_neg (by omega), if_neg (by omega)]
    dsimp only
    by_cases h3 : 3 ≤ fh.length
    · rw [if_pos h3]
      split_ifs <;> rfl
    · rw [if_neg h3]

/-- Witness for C2: history `[1, 3]` at times `[0, 1]` gives rate 2. -/
theorem C2_flux_rate_backward_difference_witness :
    calculateFluxRateCentral [1, 3] [0, 1] = 2 := by
  have h := (C2_flux_rate_backward_difference [1, 3] [0, 1]).2 (by simp) (by simp)
  rw [h]
  norm_num [List.getD]

/-- C5: Faraday's law and turns linearity — `calculateEMF r N = -N * r`, and
doubling the turn count doubles the absolute EMF at a fixed flux rate. -/
theorem C5_faraday_turns_linearity (r N : ℝ) :
    calculateEMF r N = -N * r ∧
    |calculateEMF r (2 * N)| = 2 * |calculateEMF r N| := by
  refine ⟨rfl, ?_⟩
  unfold calculateEMF
  rw [show -(2 * N) * r = 2 * (-N * r) by ring, abs_mul, abs_two]

/-- C3: dipole field — inside distance `1e-6` of the source the zero vector;
otherwise exactly the spec formula with `k = μ₀/(4π)`, `cos θ = (P−D).x / r`,
`sin θ = (P−D).y / r`. -/
theorem C3_dipole_field (p d : Vector2D) (m : ℝ) :
    calculateMagneticField p d m =
      if Real.sqrt ((p.x - d.x) ^ 2 + (p.y - d.y) ^ 2) < 1e-6 then ⟨0, 0⟩
      else
        let r := Real.sqrt ((p.x - d.x) ^ 2 + (p.y - d.y) ^ 2)
        ⟨MU_0 / (4 * Real.pi) * m * (3 * ((p.x - d.x) / r) ^ 2 - 1) / r ^ 3,
         MU_0 / (4 * Real.pi) * m * (3 * ((p.x - d.x) / r) * ((p.y - d.y) / r)) / r ^ 3⟩ := by
  unfold calculateMagneticField
  have hsq : (p.x - d.x) ^ 2 + (p.y - d.y) ^ 2 =
      (p.x - d.x) * (p.x - d.x) + (p.y - d.y) * (p.y - d.y) := by ring
  rw [hsq]
  dsimp only
  split_ifs with h
  · rfl
  · apply Vector2D.ext_fields <;> dsimp only <;> ring

/-- C4: flux integration — `calculateFlux` is the turn count times the sum of
the spec's per-grid-point contributions over the full `samples × samples`
grid. -/
theorem C4_flux_grid_sum (coil : CoilState) (magnetPos : Vector2D)
    (dipoleMoment : ℝ) (samples : ℕ) :
    calculateFlux coil magnetPos dipoleMoment samples =
      coil.turns * ∑ i in Finset.range samples, ∑ j in Finset.range samples,
        fluxGridTermSpec coil magnetPos dipoleMoment samples i j := by
  unfold calculateFlux
  congr 1
  have hbody : ∀ i : ℕ, fluxBody coil magnetPos dipoleMoment samples i =
      fun (acc : ℝ) (j : ℕ) =>
        acc + fluxGridTermSpec coil magnetPos dipoleMoment samples i j := by
    intro i
    funext acc j
    unfold fluxBody fluxGridTermSpec
    dsimp only
    split_ifs <;> first | (exfalso; linarith) | rw [add_zero] | ring
  have h1 : (fun (acc : ℝ) (i : ℕ) =>
      (List.range samples).foldl (fluxBody coil magnetPos dipoleMoment samples i) acc) =
      fun (acc : ℝ) (i : ℕ) => (List.range samples).foldl
        (fun a j => a + fluxGridTermSpec coil magnetPos dipoleMoment samples i j) acc := by
    funext acc i
    rw [hbody i]
  rw [h1, double_fold_sum]

/-- C6: Mode B snapshot law — with positive voltage, resistance and length and
end effects off, the snapshot reports `I = V/R`, `n = N/L` and
`B = polarity · μ₀ · (N/L) · (V/R)` (field taken at axis position `z = 0`). -/
theorem C6_modeB_snapshot (s : LabState) (dt : ℝ)
    (hV : 0 < s.voltage) (hR : 0 < s.resistance) (hL : 0 < s.solenoidLength)
    (hee : s.useEndEffects = false) :
    (getCurrentSnapshotB s dt).current = s.voltage / s.resistance ∧
    (getCurrentSnapshotB s dt).turnDensity = s.solenoidTurns / s.solenoidLength ∧
    (getCurrentSnapshotB s dt).magneticField =
      s.polarity * (MU_0 * (s.solenoidTurns / s.solenoidLength) * (s.voltage / s.resistance)) := by
  unfold getCurrentSnapshotB calculateFieldSolenoidAxis
  dsimp only
  rw [if_pos hR, if_pos hL, if_pos (show (!s.useEndEffects) = true by rw [hee]; rfl)]
  refine ⟨rfl, rfl, ?_⟩
  rw [abs_of_pos (div_pos hV hR)]
  rw [if_pos (show |(0 : ℝ)| ≤ s.solenoidLength / 2 by rw [abs_zero]; positivity)]
  ring

/-- Witness for C6: the spec scenario V=5, R=5, N=100, L=0.5 gives current
exactly 1, turn density exactly 200, field `4π×10⁻⁷ · 200 · 1`, and polarity
−1 negates the field exactly. -/
theorem C6_modeB_snapshot_witness :
    (getCurrentSnapshotB baseState 0).current = 1 ∧
    (getCurrentSnapshotB baseState 0).turnDensity = 200 ∧
    (getCurrentSnapshotB baseState 0).magneticField = 4 * Real.pi * 1e-7 * 200 * 1 ∧
    (getCurrentSnapshotB stateNegPolarity 0).magneticField =
      -(getCurrentSnapshotB baseState 0).magneticField := by
  obtain ⟨h1, h2, h3⟩ := C6_modeB_snapshot baseState 0
    (by norm_num [baseState]) (by norm_num [baseState]) (by norm_num [baseState])
    (by simp [baseState])
  obtain ⟨_, _, h3n⟩ := C6_modeB_snapshot stateNegPolarity 0
    (by norm_num [stateNegPolarity, baseState]) (by norm_num [stateNegPolarity, baseState])
    (by norm_num [stateNegPolarity, baseState]) (by simp [stateNegPolarity, baseState])
  refine ⟨?_, ?_, ?_, ?_⟩
  · rw [h1]; norm_num [baseState]
  · rw [h2]; norm_num [baseState]
  · rw [h3]; norm_num [baseState, MU_0]
  · rw [h3n, h3]; norm_num [stateNegPolarity, baseState]

/-- C7 counterexample: in the Mode B path with a negative solenoid length and
end effects enabled, the reported turn density is 0 (the guard in
`getCurrentSnapshotB`) yet the reported field is nonzero — so the turn
density used inside `calculateFieldSolenoidAxis` was `N/L`, not the guarded 0;
the source field function and the spec's guarded variant disagree. -/
theorem C7_counterexample :
    (getCurrentSnapshotB stateC7 0).turnDensity = 0 ∧
    (getCurrentSnapshotB stateC7 0).magneticField ≠ 0 ∧
    calculateFieldSolenoidAxis 0 (-1) 1 100 true ≠
      calculateFieldSolenoidAxisGuarded 0 (-1) 1 100 true := by
  have hpi : (0 : ℝ) < Real.pi := Real.pi_pos
  have hmu : (0 : ℝ) < MU_0 := by unfold MU_0; positivity
  have hsrc : calculateFieldSolenoidAxis 0 (-1) 1 100 true = MU_0 * (-500) := by
    unfold calculateFieldSolenoidAxis
    norm_num
    ring
  have hgrd : calculateFieldSolenoidAxisGuarded 0 (-1) 1 100 true = 0 := by
    unfold calculateFieldSolenoidAxisGuarded
    norm_num
  have hneg : MU_0 * (-500) < 0 := by nlinarith
  refine ⟨?_, ?_, ?_⟩
  · unfold getCurrentSnapshotB
    dsimp only
    rw [if_neg (by norm_num [stateC7, baseState])]
  · unfold getCurrentSnapshotB
    dsimp only
    have hcur : (if stateC7.resistance > 0 then stateC7.voltage / stateC7.resistance else 0) = 1 := by
      norm_num [stateC7, baseState]
    rw [hcur]
    have : calculateFieldSolenoidAxis 0 stateC7.solenoidLength |(1 : ℝ)|
        stateC7.solenoidTurns stateC7.useEndEffects = MU_0 * (-500) := by
      have hL : stateC7.solenoidLength = -1 := by norm_num [stateC7, baseState]
      have hN : stateC7.solenoidTurns = 100 := by norm_num [stateC7, baseState]
      have hE : stateC7.useEndEffects = true := by simp [stateC7, baseState]
      rw [hL, hN, hE, abs_one]
      exact hsrc
    rw [this]
    have hp : stateC7.polarity = 1 := by norm_num [stateC7, baseState]
    rw [hp, mul_one]
    exact ne_of_lt hneg
  · rw [hsrc, hgrd]
    exact ne_of_lt hneg

/-- C7 as amended: the turn density reported by the Mode B snapshot is guarded
by an explicit `length > 0` check and is 0 for zero or negative length. -/
theorem C7_turn_density_guard (s : LabState) (dt : ℝ) (hL : s.solenoidLength ≤ 0) :
    (getCurrentSnapshotB s dt).turnDensity = 0 := by
  unfold getCurrentSnapshotB
  dsimp only
  rw [if_neg (not_lt.mpr hL)]

/-- Witness for the amended C7 at a zero-length solenoid. -/
theorem C7_turn_density_guard_witness :
    (getCurrentSnapshotB stateC7w 0).turnDensity = 0 :=
  C7_turn_density_guard stateC7w 0 (by norm_num [stateC7w, baseState])

/-- C8 as amended: when smoothing is enabled (`fluxSmoothingWindow > 0`) and
the existing flux history is non-empty, the reported flux is
`0.3·raw + 0.7·last`; when the history is empty the raw integrated flux is
reported unchanged; and when smoothing is disabled (`fluxSmoothingWindow ≤ 0`,
with 0 the documented "no smoothing" setting) the raw integrated flux is
reported even for a non-empty history. -/
theorem C8_flux_smoothing (s : LabState) (dt : ℝ) :
    (0 < s.fluxSmoothingWindow → s.fluxHistory ≠ [] →
      (getCurrentSnapshot s dt).flux =
        0.3 * calculateFlux s.coil s.magnetPosition s.magnetDipoleMoment
          s.fluxIntegrationSamples +
          0.7 * s.fluxHistory.getD (s.fluxHistory.length - 1) 0) ∧
    (s.fluxHistory = [] →
      (getCurrentSnapshot s dt).flux =
        calculateFlux s.coil s.magnetPosition s.magnetDipoleMoment
          s.fluxIntegrationSamples) ∧
    (s.fluxSmoothingWindow ≤ 0 →
      (getCurrentSnapshot s dt).flux =
        calculateFlux s.coil s.magnetPosition s.magnetDipoleMoment
          s.fluxIntegrationSamples) := by
  refine ⟨?_, ?_, ?_⟩
  · intro hw hh
    unfold getCurrentSnapshot
    dsimp only
    rw [if_pos ⟨hw, hh⟩]
    unfold smoothValue
    norm_num
  · intro hh
    unfold getCurrentSnapshot
    dsimp only
    rw [if_neg (by simp [hh])]
  · intro hw
    unfold getCurrentSnapshot
    dsimp only
    rw [if_neg (by rintro ⟨h, -⟩; exact absurd h (not_lt.mpr hw))]

/-- Witness for the amended C8: smoothing enabled with history `[2]` smooths,
and smoothing disabled (`fluxSmoothingWindow = 0`) with history `[1]` reports
the raw flux. -/
theorem C8_flux_smoothing_witness :
    ((getCurrentSnapshot stateC8w 1).flux =
      0.3 * calculateFlux stateC8w.coil stateC8w.magnetPosition
        stateC8w.magnetDipoleMoment stateC8w.fluxIntegrationSamples +
        0.7 * stateC8w.fluxHistory.getD (stateC8w.fluxHistory.length - 1) 0) ∧
    (getCurrentSnapshot stateC8c 1).flux =
      calculateFlux stateC8c.coil stateC8c.magnetPosition
        stateC8c.magnetDipoleMoment stateC8c.fluxIntegrationSamples :=
  ⟨(C8_flux_smoothing stateC8w 1).1 (by norm_num [stateC8w, baseState])
      (by simp [stateC8w, baseState]),
    (C8_flux_smoothing stateC8c 1).2.2 (by norm_num [stateC8c, baseState])⟩

/-- C8 counterexample: with `fluxSmoothingWindow = 0` (smoothing disabled, a
documented configuration) and non-empty history `[1]`, the snapshot reports
the raw flux (here 0, zero-radius coil), not `0.3·raw + 0.7·1 = 0.7` as the
claim requires for every tick with non-empty history. -/
theorem C8_counterexample :
    (getCurrentSnapshot stateC8c 1).flux ≠
      0.3 * calculateFlux stateC8c.coil stateC8c.magnetPosition
        stateC8c.magnetDipoleMoment stateC8c.fluxIntegrationSamples +
        0.7 * stateC8c.fluxHistory.getD (stateC8c.fluxHistory.length - 1) 0 := by
  have hflux : calculateFlux stateC8c.coil stateC8c.magnetPosition
      stateC8c.magnetDipoleMoment stateC8c.fluxIntegrationSamples = 0 := by
    simp [calculateFlux, fluxBody, stateC8c, baseState, LabState.coil,
      List.range_succ, List.range_zero]
  have hlhs : (getCurrentSnapshot stateC8c 1).flux =
      calculateFlux stateC8c.coil stateC8c.magnetPosition
        stateC8c.magnetDipoleMoment stateC8c.fluxIntegrationSamples := by
    unfold getCurrentSnapshot
    dsimp only
    rw [if_neg (by rintro ⟨h, -⟩; norm_num [stateC8c, baseState] at h)]
  have hlast : stateC8c.fluxHistory.getD (stateC8c.fluxHistory.length - 1) 0 = 1 := by
    simp [stateC8c, baseState]
  rw [hlhs, hflux, hlast]
  norm_num

/-- C9 as amended: the Mode A CSV row is exactly the serialization of every
`Measurement` field in data-model order (all 23, `deltaT` at index 1,
numerics through the `toFixed(6)` formatter, `turns` through `toString`, the
quote-escaped Lenz explanation last), while the Mode B CSV row is exactly the
serialization of every `MeasurementB` field except `deltaT` (10 of the 11
fields, deliberately excluded as not applicable to steady-state DC, with
`polarity` rendered `+1`/`-1`); the JSON exports are the structured dump
applied directly to the full record lists. -/
theorem C9_export_fields :
    exportToCSV_headers.length = 23 ∧
    "Δt (s)" ∈ exportToCSV_headers ∧
    (∀ (f g : ℝ → String) (m : Measurement),
      exportToCSV_row f g m =
        [f m.timestamp, f m.deltaT, f m.magnetX, f m.magnetY, f m.velocityX,
         f m.velocityY, f m.speed, g m.turns, f m.radius, f m.angle,
         f m.coilResistance, f m.loadResistance, f m.totalResistance,
         f m.magneticFieldX, f m.magneticFieldY, f m.magneticFieldMag,
         f m.flux, f m.fluxRate, f m.emf, f m.current, m.direction.toStr,
         m.fluxChange.toStr, escapeCSV m.lenzExplanation]) ∧
    (∀ (f g : ℝ → String) (m : Measurement), (exportToCSV_row f g m).length = 23) ∧
    (∀ (f g : ℝ → String) (m : Measurement), (exportToCSV_row f g m).getD 1 "" = f m.deltaT) ∧
    (∀ (f g : ℝ → String) (m : Measurement),
      (exportToCSV_row f g m).getLastD "" = escapeCSV m.lenzExplanation) ∧
    exportToCSVB_headers.length = 10 ∧
    "Δt (s)" ∉ exportToCSVB_headers ∧
    (∀ (f g : ℝ → String) (m : MeasurementB),
      exportToCSVB_row f g m =
        [f m.timestamp, f m.voltage, f m.resistance, f m.current, f m.length,
         g m.turns, f m.turnDensity, f m.radius, f m.magneticField,
         if m.polarity > 0 then "+1" else "-1"]) ∧
    (∀ (f g : ℝ → String) (m : MeasurementB), (exportToCSVB_row f g m).length = 10) ∧
    (∀ (stringify : List Measurement → String) (ms : List Measurement),
      exportToJSON stringify ms = stringify ms) ∧
    (∀ (stringify : List MeasurementB → String) (ms : List MeasurementB),
      exportToJSONB stringify ms = stringify ms) := by
  refine ⟨by decide, by decide, ?_, ?_, ?_, ?_, by decide, by decide, ?_, ?_, ?_, ?_⟩
  · intro f g m; rfl
  · intro f g m; simp [exportToCSV_row]
  · intro f g m; simp [exportToCSV_row]
  · intro f g m; simp [exportToCSV_row]
  · intro f g m; rfl
  · intro f g m; simp [exportToCSVB_row]
  · intro stringify ms; rfl
  · intro stringify ms; rfl

/-- C9 counterexample: the Mode B CSV schema has only 10 columns and none of
them is the `Δt (s)` column that the Mode A schema carries — `deltaT` is a
`MeasurementB` field but is not exported, so the Mode B export does not
include every field of the record. -/
theorem C9_counterexample :
    "Δt (s)" ∈ exportToCSV_headers ∧
    "Δt (s)" ∉ exportToCSVB_headers ∧
    exportToCSVB_headers.length = 10 ∧
    (exportToCSVB_row (fun _ => "0.000000") (fun _ => "100") measB0).length = 10 := by
  refine ⟨by decide, by decide, by decide, ?_⟩
  simp [exportToCSVB_row]

theorem foldl_const_add (c1 c2 : ℝ) (k : ℕ) :
    ∀ (l : List ℕ) (a : ℝ × ℝ × ℕ),
      l.foldl (fun acc _ => (acc.1 + c1, acc.2.1 + c2, acc.2.2 + k)) a =
        (a.1 + l.length * c1, a.2.1 + l.length * c2, a.2.2 + l.length * k) := by
  intro l
  induction l with
  | nil => intro a; simp
  | cons x xs ih =>
    intro a
    simp only [List.foldl_cons, ih, List.length_cons, Prod.mk.injEq]
    refine ⟨by push_cast; ring, by push_cast; ring, by ring⟩

theorem avgBody_zero_radius (coil : CoilState) (magnetPos : Vector2D) (dipoleMoment : ℝ)
    (samples : ℕ) (h : coil.radius = 0) (i : ℕ) :
    avgBody coil magnetPos dipoleMoment samples i = fun acc _ =>
      (acc.1 + (calculateMagneticField coil.position magnetPos dipoleMoment).x,
       acc.2.1 + (calculateMagneticField coil.position magnetPos dipoleMoment).y,
       acc.2.2 + 1) := by
  funext acc j
  unfold avgBody
  rw [h]
  norm_num [Real.sqrt_zero]

/-- C10: zero-radius mask edge — for a zero-radius coil every grid point
collapses onto the center, passes the circular mask, and the average field is
the dipole field at the coil center; the zero-valid-samples fallback is not
taken for any `samples ≥ 1`. -/
theorem C10_zero_radius_average (coil : CoilState) (magnetPos : Vector2D)
    (dipoleMoment : ℝ) (samples : ℕ) (hr : coil.radius = 0) (hs : 1 ≤ samples) :
    calculateAverageFieldOverCoil coil magnetPos dipoleMoment samples =
      calculateMagneticField coil.position magnetPos dipoleMoment := by
  unfold calculateAverageFieldOverCoil
  have h1 : (fun (a : ℝ × ℝ × ℕ) (i : ℕ) =>
      (List.range samples).foldl (avgBody coil magnetPos dipoleMoment samples i) a) =
      fun a _ =>
        (a.1 + samples * (calculateMagneticField coil.position magnetPos dipoleMoment).x,
         a.2.1 + samples * (calculateMagneticField coil.position magnetPos dipoleMoment).y,
         a.2.2 + samples) := by
    funext a i
    rw [avgBody_zero_radius coil magnetPos dipoleMoment samples hr i, foldl_const_add]
    simp [List.length_range]
  rw [h1, foldl_const_add]
  have hsn : (samples : ℝ) ≠ 0 := Nat.cast_ne_zero.mpr (by omega)
  rw [if_neg (by simp [List.length_range]; omega)]
  apply Vector2D.ext_fields <;>
    · dsimp only
      simp only [List.length_range]
      push_cast
      field_simp
      ring

/-- Witness for C10 at a concrete zero-radius coil with a 2×2 grid. -/
theorem C10_zero_radius_average_witness :
    calculateAverageFieldOverCoil coilC10 ⟨-1, 0⟩ 1 2 =
      calculateMagneticField coilC10.position ⟨-1, 0⟩ 1 :=
  C10_zero_radius_average coilC10 ⟨-1, 0⟩ 1 2 (by norm_num [coilC10]) (by norm_num)

end PhysicsLab

end
